import Mathlib

/-
Shallow embedding of the KETI storage-engine handler (src/ha_keti.cc),
covering the pieces the specification talks about: the write path
(ha_keti write_row), the scan step (ha_keti rnd_next), the unsupported
host hooks, the cardinality estimate (records_in_range) and the
system-table check (keti_is_supported_system_table).

Network effects are made explicit: each embedded operation takes the
outcome of its single recv call as a parameter (none = recv returned -1;
some chunk = the bytes the kernel delivered) and reports the bytes it
sent, whether it opened a socket, and whether it closed it.
-/

set_option autoImplicit false

/-- Bytes are modelled as natural numbers; every concrete byte used below
is below 256. -/
abbrev Byte := Nat

/-- Host error code HA_ERR_WRONG_COMMAND (command not supported). -/
def HA_ERR_WRONG_COMMAND : Int := 131

/-- Host error code HA_ERR_END_OF_FILE (end of data). -/
def HA_ERR_END_OF_FILE : Int := 137

/-- Opcode byte sent by write_row: the ASCII code of w. -/
def wOpcode : Byte := 119

/-- Opcode byte sent by rnd_next: the ASCII code of r. -/
def rOpcode : Byte := 114

/-- The bytes of the acknowledgement token success, as the C literal
compared against by strcmp (without its terminating zero byte). -/
def successToken : List Byte := [115, 117, 99, 99, 101, 115, 115]

/-- The C-string view of a buffer: the bytes strictly before the first
zero byte. This is exactly the prefix strcmp inspects, so
strcmp(buffer, token) == 0 holds iff cString buffer equals the token
bytes. -/
def cString : List Byte → List Byte
  | [] => []
  | b :: rest => if b = 0 then [] else b :: cString rest

/-- Contents of a caller buffer after recv wrote the delivered bytes over
its previous contents: the delivered prefix followed by whatever stale
bytes the buffer held beyond it. -/
def recvBuffer (old received : List Byte) : List Byte :=
  received ++ old.drop received.length

/-- Result of one call to the embedded write_row: the int return value,
whether a socket was created, whether close was called on it before
returning, and the payload bytes pushed to the connection. -/
structure WriteOutcome where
  ret : Int
  opened : Bool
  closed : Bool
  sent : List Byte
  deriving Repr, DecidableEq

/-- Embedding of ha_keti write_row (src/ha_keti.cc lines 282 to 330).
The code creates a socket (return -1 on failure), connects (return -1 on
failure), sends the opcode byte w followed by reclength row bytes, then
does one recv into a 20 byte stack buffer recvbuf. recv failure or a
read of fewer than 1 byte returns -1; otherwise the code returns 0 iff
strcmp(recvbuf, success-token) == 0. The close call in the source is
commented out, so no path sets closed. junk models the stale contents of
the 20 byte recvbuf before the recv; the kernel never delivers more than
the 20 bytes the recv call asked for, hence the take 20. -/
def write_row (reclength : Nat) (row : List Byte) (socketOk connectOk : Bool)
    (recvRes : Option (List Byte)) (junk : List Byte) : WriteOutcome :=
  if socketOk = false then ⟨-1, false, false, []⟩
  else if connectOk = false then ⟨-1, true, false, []⟩
  else
    let sent := wOpcode :: row.take reclength
    match recvRes with
    | none => ⟨-1, true, false, sent⟩
    | some chunk =>
      let received := chunk.take 20
      if received.length < 1 then ⟨-1, true, false, sent⟩
      else if cString (recvBuffer junk received) = successToken then
        ⟨0, true, false, sent⟩
      else ⟨-1, true, false, sent⟩

/-- Result of one call to the embedded rnd_next: the int return value,
the contents of the host row buffer afterwards, and the bytes sent. -/
structure ScanStepOutcome where
  ret : Int
  buf : List Byte
  sent : List Byte
  deriving Repr, DecidableEq

/-- Embedding of ha_keti rnd_next (src/ha_keti.cc lines 656 to 680).
The code sends the opcode byte r on the scan socket, then does one recv
of at most reclength bytes directly into the host row buffer buf. recv
failure or a read of fewer than 1 byte returns -1; otherwise the code
returns HA_ERR_END_OF_FILE iff strcmp(buf, success-token) == 0 and -1 in
every other case. It never returns 0, the host code for a delivered
row. hostBuf models the contents of the host buffer before the call. -/
def rnd_next (reclength : Nat) (hostBuf : List Byte)
    (recvRes : Option (List Byte)) : ScanStepOutcome :=
  match recvRes with
  | none => ⟨-1, hostBuf, [rOpcode]⟩
  | some chunk =>
    let received := chunk.take reclength
    if received.length < 1 then ⟨-1, hostBuf, [rOpcode]⟩
    else
      let buffer := recvBuffer hostBuf received
      if cString buffer = successToken then
        ⟨HA_ERR_END_OF_FILE, buffer, [rOpcode]⟩
      else ⟨-1, buffer, [rOpcode]⟩

/-- Result of one of the simple host hooks: the int return value and the
bytes it pushed to the network (always none: these hooks perform no
protocol action in the source). -/
structure HookOutcome where
  ret : Int
  net : List Byte
  deriving Repr, DecidableEq

/-- Embedding of ha_keti update_row (src/ha_keti.cc lines 355 to 358). -/
def update_row (_old _new : List Byte) : HookOutcome :=
  ⟨HA_ERR_WRONG_COMMAND, []⟩

/-- Embedding of ha_keti delete_row. -/
def delete_row (_buf : List Byte) : HookOutcome :=
  ⟨HA_ERR_WRONG_COMMAND, []⟩

/-- Embedding of ha_keti index_read_map. -/
def index_read_map (_buf _key : List Byte) (_keypartMap _findFlag : Nat) :
    HookOutcome :=
  ⟨HA_ERR_WRONG_COMMAND, []⟩

/-- Embedding of ha_keti index_next. -/
def index_next (_buf : List Byte) : HookOutcome :=
  ⟨HA_ERR_WRONG_COMMAND, []⟩

/-- Embedding of ha_keti index_prev. -/
def index_prev (_buf : List Byte) : HookOutcome :=
  ⟨HA_ERR_WRONG_COMMAND, []⟩

/-- Embedding of ha_keti index_first. -/
def index_first (_buf : List Byte) : HookOutcome :=
  ⟨HA_ERR_WRONG_COMMAND, []⟩

/-- Embedding of ha_keti index_last. -/
def index_last (_buf : List Byte) : HookOutcome :=
  ⟨HA_ERR_WRONG_COMMAND, []⟩

/-- Embedding of ha_keti rnd_pos (src/ha_keti.cc lines 718 to 724). -/
def rnd_pos (_buf _pos : List Byte) : HookOutcome :=
  ⟨HA_ERR_WRONG_COMMAND, []⟩

/-- Embedding of ha_keti rename_table. -/
def rename_table (_a _b : String) : HookOutcome :=
  ⟨HA_ERR_WRONG_COMMAND, []⟩

/-- Embedding of ha_keti delete_all_rows. -/
def delete_all_rows : HookOutcome :=
  ⟨HA_ERR_WRONG_COMMAND, []⟩

/-- Embedding of ha_keti delete_table (src/ha_keti.cc lines 893 to 897):
it does nothing and returns 0, the host success code. -/
def delete_table (_name : String) : HookOutcome :=
  ⟨0, []⟩

/-- The two session variables ha_keti create touches. -/
structure ThdState where
  last_create_thdvar : Option String
  create_count_thdvar : Nat
  deriving Repr, DecidableEq

/-- The ASCII apostrophe used by the message create formats. -/
def quoteS : String := String.singleton (Char.ofNat 39)

/-- The message create stores in last_create_thdvar: the words Last
creation followed by the quoted table name. -/
def lastCreationMsg (name : String) : String :=
  "Last creation " ++ quoteS ++ name ++ quoteS

/-- Embedding of ha_keti create (src/ha_keti.cc lines 962 to 984): it
touches no socket, stores a message naming the created table in one
session variable, increments a creation counter in another, and returns
0, the host success code. -/
def create (name : String) (thd : ThdState) : HookOutcome × ThdState :=
  (⟨0, []⟩,
   { last_create_thdvar := some (lastCreationMsg name),
     create_count_thdvar := thd.create_count_thdvar + 1 })

/-- Embedding of ha_keti records_in_range (src/ha_keti.cc lines 932 to
935): it ignores the index number and both key ranges and returns 10. -/
def records_in_range (_inx : Nat) (_minKey _maxKey : Option (List Byte)) :
    Nat :=
  10

/-- Embedding of the ha_keti_system_tables array (src/ha_keti.cc lines
173 to 174): its only entry is the NULL terminator pair. -/
def ha_keti_system_tables : List (Option String × Option String) :=
  [(none, none)]

/-- Embedding of the while loop of keti_is_supported_system_table: walk
the entries until one with a NULL database name; an entry matches when
its db pointer equals the db argument (pointer comparison, modelled by
the abstract ptrEq) and its table name compares equal to table_name by
strcmp. -/
def systabLookup (ptrEq : String → String → Bool) (db table_name : String) :
    List (Option String × Option String) → Bool
  | [] => false
  | (some d, te) :: rest =>
    if ptrEq d db && te.getD "" == table_name then true
    else systabLookup ptrEq db table_name rest
  | (none, _) :: _ => false

/-- Embedding of keti_is_supported_system_table (src/ha_keti.cc lines
188 to 205): false for SQL-layer system tables, else the table lookup
above over ha_keti_system_tables. -/
def keti_is_supported_system_table (ptrEq : String → String → Bool)
    (db table_name : String) (is_sql_layer_system_table : Bool) : Bool :=
  if is_sql_layer_system_table then false
  else systabLookup ptrEq db table_name ha_keti_system_tables

/-- C9: records_in_range returns the constant 10 whatever its index and
key-range arguments are. -/
theorem records_in_range_constant (inx : Nat)
    (minKey maxKey : Option (List Byte)) :
    records_in_range inx minKey maxKey = 10 := rfl

/-- C10: keti_is_supported_system_table returns false for every database
name, table name, SQL-layer flag and pointer-equality oracle, because the
system-table list holds only its NULL terminator. -/
theorem keti_system_table_always_false (ptrEq : String → String → Bool)
    (db table_name : String) (flag : Bool) :
    keti_is_supported_system_table ptrEq db table_name flag = false := by
  cases flag <;> rfl

/-- C8: for every host-buffer state and every outcome of the recv call,
rnd_next returns -1 or HA_ERR_END_OF_FILE, and never 0 — no reply makes
it report a delivered row to the host. -/
theorem rnd_next_never_returns_row (reclength : Nat) (hostBuf : List Byte)
    (recvRes : Option (List Byte)) :
    ((rnd_next reclength hostBuf recvRes).ret = -1 ∨
      (rnd_next reclength hostBuf recvRes).ret = HA_ERR_END_OF_FILE) ∧
    (rnd_next reclength hostBuf recvRes).ret ≠ 0 := by
  cases recvRes with
  | none => simp [rnd_next, HA_ERR_END_OF_FILE]
  | some chunk =>
    simp only [rnd_next]
    split_ifs <;> simp [HA_ERR_END_OF_FILE]

/-- C1 (code bug): at record length 8, a reply carrying the 8 row bytes
1..8 is copied into the host buffer but rnd_next returns -1, the generic
failure code, instead of 0 with the scan still open. -/
theorem rnd_next_drops_data_reply :
    (rnd_next 8 (List.replicate 8 0) (some [1, 2, 3, 4, 5, 6, 7, 8])).ret
        = -1 ∧
    (rnd_next 8 (List.replicate 8 0) (some [1, 2, 3, 4, 5, 6, 7, 8])).buf
        = [1, 2, 3, 4, 5, 6, 7, 8] := by
  decide

/-- C2 (code bug): control is inferred by strcmp on the payload, so a
full-length data row whose 8 bytes spell the success token followed by a
zero byte is swallowed as end of stream: rnd_next returns
HA_ERR_END_OF_FILE, not the row code 0. -/
theorem rnd_next_mistakes_row_for_status :
    (successToken ++ [0]).length = 8 ∧
    (rnd_next 8 (List.replicate 8 7) (some (successToken ++ [0]))).ret
        = HA_ERR_END_OF_FILE ∧
    (rnd_next 8 (List.replicate 8 7) (some (successToken ++ [0]))).ret
        ≠ 0 := by
  decide

/-- C5 (code bug): at record length 16, a short read delivering only the
8 bytes of the success token plus a zero byte is treated as a complete
end-of-stream reply — rnd_next returns HA_ERR_END_OF_FILE instead of
reporting a short-read transport error. -/
theorem rnd_next_short_read_as_eof :
    (successToken ++ [0]).length < 16 ∧
    (rnd_next 16 (List.replicate 16 7) (some (successToken ++ [0]))).ret
        = HA_ERR_END_OF_FILE := by
  decide

/-- C6 (counterexample): a status reply spelling the token eof with a
terminating zero byte makes the first rnd_next return -1, the generic
failure code, not the end-of-data code the claim promises. -/
theorem rnd_next_eof_token_fails :
    (rnd_next 8 (List.replicate 8 7) (some [101, 111, 102, 0])).ret = -1 ∧
    (rnd_next 8 (List.replicate 8 7) (some [101, 111, 102, 0])).ret
        ≠ HA_ERR_END_OF_FILE := by
  decide

/-- C6 (amended): the end-of-stream token the code recognises is success,
not eof: whatever the host buffer held before, the very first rnd_next
that receives the success token with its terminating zero byte returns
HA_ERR_END_OF_FILE — a clean end of data, not the failure code. -/
theorem rnd_next_success_token_ends_scan (hostBuf : List Byte) :
    (rnd_next 8 hostBuf (some (successToken ++ [0]))).ret
        = HA_ERR_END_OF_FILE ∧
    (rnd_next 8 hostBuf (some (successToken ++ [0]))).ret ≠ -1 := by
  constructor
  · rfl
  · have h : (rnd_next 8 hostBuf (some (successToken ++ [0]))).ret
        = HA_ERR_END_OF_FILE := rfl
    rw [h]
    decide

/-- C4 (code bug): whenever the socket call succeeds, write_row returns
with a socket opened and never closed — the close call is commented out
in the source, on the success path and on every error path alike. -/
theorem write_row_never_closes_socket (reclength : Nat) (row : List Byte)
    (connectOk : Bool) (recvRes : Option (List Byte)) (junk : List Byte) :
    (write_row reclength row true connectOk recvRes junk).opened = true ∧
    (write_row reclength row true connectOk recvRes junk).closed = false := by
  cases connectOk with
  | false => simp [write_row]
  | true =>
    cases recvRes with
    | none => simp [write_row]
    | some chunk =>
      simp only [write_row]
      split_ifs <;> simp_all

/-- C3 (counterexample): a reply that differs byte for byte from the
success token — the token, a zero byte, then an extra byte 33 — still
makes write_row return 0, because strcmp stops at the zero byte. -/
theorem write_row_ack_counterexample :
    (write_row 8 [1, 2, 3, 4, 5, 6, 7, 8] true true
        (some (successToken ++ [0, 33])) (List.replicate 20 55)).ret = 0 ∧
    successToken ++ [0, 33] ≠ successToken := by
  decide

/-- C3 (amended): write_row returns 0 exactly when the socket and connect
calls succeed, the recv call delivers at least one byte, and the bytes it
wrote over the 20 byte stack buffer read, as a C string, exactly the
success token; every transport failure and every other reply returns
-1. -/
theorem write_row_ack_iff (reclength : Nat) (row : List Byte)
    (socketOk connectOk : Bool) (recvRes : Option (List Byte))
    (junk : List Byte) :
    ((write_row reclength row socketOk connectOk recvRes junk).ret = 0 ↔
      socketOk = true ∧ connectOk = true ∧
        ∃ chunk, recvRes = some chunk ∧ 1 ≤ (chunk.take 20).length ∧
          cString (recvBuffer junk (chunk.take 20)) = successToken) ∧
    ((write_row reclength row socketOk connectOk recvRes junk).ret = 0 ∨
      (write_row reclength row socketOk connectOk recvRes junk).ret = -1) := by
  cases socketOk with
  | false => simp [write_row]
  | true =>
    cases connectOk with
    | false => simp [write_row]
    | true =>
      cases recvRes with
      | none => simp [write_row]
      | some chunk =>
        cases chunk with
        | nil => simp [write_row]
        | cons b bs =>
          by_cases h2 : cString (recvBuffer junk (b :: bs.take 19))
              = successToken <;>
            simp [write_row, h2]

/-- C7 (counterexample): the create hook does not return the host code
for an unsupported operation — it returns 0, the host success code. -/
theorem create_returns_success :
    (create (String.singleton (Char.ofNat 116)) ⟨none, 0⟩).1.ret = 0 ∧
    (create (String.singleton (Char.ofNat 116)) ⟨none, 0⟩).1.ret
        ≠ HA_ERR_WRONG_COMMAND := by
  decide

/-- C7 (amended): none of the hooks touches the network; rnd_pos, the
five index operations, update_row, delete_row, rename_table and
delete_all_rows return HA_ERR_WRONG_COMMAND, while create and
delete_table instead return 0, the host success code, create also
updating the two session variables. -/
theorem unsupported_hooks_amended :
    (∀ o n, update_row o n = ⟨HA_ERR_WRONG_COMMAND, []⟩) ∧
    (∀ b, delete_row b = ⟨HA_ERR_WRONG_COMMAND, []⟩) ∧
    (∀ b k m f, index_read_map b k m f = ⟨HA_ERR_WRONG_COMMAND, []⟩) ∧
    (∀ b, index_next b = ⟨HA_ERR_WRONG_COMMAND, []⟩) ∧
    (∀ b, index_prev b = ⟨HA_ERR_WRONG_COMMAND, []⟩) ∧
    (∀ b, index_first b = ⟨HA_ERR_WRONG_COMMAND, []⟩) ∧
    (∀ b, index_last b = ⟨HA_ERR_WRONG_COMMAND, []⟩) ∧
    (∀ b p, rnd_pos b p = ⟨HA_ERR_WRONG_COMMAND, []⟩) ∧
    (∀ a b, rename_table a b = ⟨HA_ERR_WRONG_COMMAND, []⟩) ∧
    delete_all_rows = ⟨HA_ERR_WRONG_COMMAND, []⟩ ∧
    (∀ nm, delete_table nm = ⟨0, []⟩) ∧
    (∀ nm thd, (create nm thd).1 = ⟨0, []⟩ ∧
      (create nm thd).2.create_count_thdvar = thd.create_count_thdvar + 1) :=
  ⟨fun _ _ => rfl, fun _ => rfl, fun _ _ _ _ => rfl, fun _ => rfl,
   fun _ => rfl, fun _ => rfl, fun _ => rfl, fun _ _ => rfl,
   fun _ _ => rfl, rfl, fun _ => rfl, fun _ _ => ⟨rfl, rfl⟩⟩
